import Mathlib

/-!
Verification of the AssetManager intraday strategy core.

This file gives a shallow embedding, over exact rational arithmetic, of the
components of the repository that the specification describes:

* the value model (`Candle`, `StrategyConfig`, `ORBLevel`, `FVG`,
  `TradeSignal`, `TradeRecord`, `SessionState`) from
  `backend/app/agents/strategies/engine/models.py`;
* the indicator helpers (`body_ratio`, `compute_avg_volume`, `compute_ATR`)
  from `backend/app/agents/strategies/engine/indicators.py`;
* the pattern engine (`ORBFVGEngine.run_session` and its helpers) from
  `backend/app/agents/strategies/engine/orb_fvg_engine.py`;
* the circuit breaker from
  `backend/app/agents/strategies/engine/circuit_breaker.py`;
* the trade simulator and the session loop of
  `backend/app/agents/strategies/backtest_runner.py`;
* the profit-factor computation of
  `backend/app/agents/strategies/engine/kpi_calculator.py`;
* the empty-input path of
  `backend/app/agents/strategies/engine/bootstrap_analyzer.py`.

Python floats are modelled as rationals (the code uses no float-specific
behaviour on the paths verified here), Python strings as `String`, and the
wall-clock / uuid inputs of signal-id generation as an explicit `nonce`
argument.
-/

/-- One price bar (`CandleRow` in the source): timestamp, open, high, low,
close, volume. -/
structure Candle where
  timestamp : String
  open_ : ℚ
  high : ℚ
  low : ℚ
  close : ℚ
  volume : ℚ
deriving DecidableEq, Repr, Inhabited

/-- The strategy parameters used by the engine, the simulator and the
circuit breaker (`StrategyConfig` in `models.py`; fields not read by the
embedded code are omitted). -/
structure StrategyConfig where
  min_range_pips : ℚ
  vol_ruptura_ratio : ℚ
  body_ratio_breakout : ℚ
  min_fvg_size_atr : ℚ
  p_cuerpo_min : ℚ
  p_vol_min : ℚ
  wait_retest_max_m1 : Int
  rr_target : ℚ
  buffer_sl_factor : ℚ
  swing_lookback : Nat
  risk_per_trade : ℚ
  max_daily_losses : Nat
  max_daily_drawdown_pct : ℚ
  max_monthly_drawdown_pct : ℚ
deriving DecidableEq, Repr

/-- Trade direction tag used by the FVG ('bullish' / 'bearish' strings in the
source). -/
inductive Direction
  | bullish
  | bearish
deriving DecidableEq, Repr

/-- Signal side ('LONG' / 'SHORT' strings in the source). -/
inductive Side
  | LONG
  | SHORT
deriving DecidableEq, Repr, Inhabited

/-- Confidence tag ('standard' / 'premium' strings in the source). -/
inductive Confidence
  | standard
  | premium
deriving DecidableEq, Repr, Inhabited

/-- Opening range levels (`ORBLevel` in `models.py`). -/
structure ORBLevel where
  high : ℚ
  low : ℚ
  range_ : ℚ
  valid : Bool
deriving DecidableEq, Repr

/-- Fair value gap (`FVG` in `models.py`). -/
structure FVG where
  top : ℚ
  bottom : ℚ
  midpoint : ℚ
  direction : Direction
  size : ℚ
deriving DecidableEq, Repr

/-- Trade signal (`TradeSignal` in `models.py`). -/
structure TradeSignal where
  signal_id : String
  timestamp : String
  direction : Side
  orh : ℚ
  orl : ℚ
  fvg_top : ℚ
  fvg_bottom : ℚ
  entry : ℚ
  stop : ℚ
  tp : ℚ
  risk_pips : ℚ
  position_size : ℚ
  confidence : Confidence
  atr_m1 : ℚ
deriving DecidableEq, Repr, Inhabited

/-- Trade outcome tag ('win_tp' / 'loss_sl' / 'expired' strings in the
source). -/
inductive Outcome
  | win_tp
  | loss_sl
  | expired
deriving DecidableEq, Repr

/-- Trade record (`TradeRecord` in `models.py`). -/
structure TradeRecord where
  signal : TradeSignal
  outcome : Outcome
  exit_price : ℚ
  exit_timestamp : String
  pnl_r : ℚ
  pnl_usd : ℚ
  slippage_pips : ℚ
deriving DecidableEq, Repr

/-- `TradeRecord.is_win` from `models.py`. -/
def TradeRecord.is_win (t : TradeRecord) : Bool :=
  t.outcome = Outcome.win_tp

/-- `TradeRecord.is_loss` from `models.py`. -/
def TradeRecord.is_loss (t : TradeRecord) : Bool :=
  t.outcome = Outcome.loss_sl

/-- Mutable per-session scratch state (`SessionState` in `models.py`; the
`orb` and `trades_today` fields are never read by `run_session` and are
omitted). -/
structure SessionState where
  fvg : Option FVG
  setup_active : Bool
  retest_countdown : Int
  breakout_detected : Bool
  breakout_direction : Option Direction
deriving DecidableEq, Repr

/-- The fresh `SessionState()` constructed at the top of `run_session`. -/
def initial_session_state : SessionState :=
  { fvg := none, setup_active := false, retest_countdown := 0,
    breakout_detected := false, breakout_direction := none }

/-- Python slice `xs[-n:]` for `n > 0` (also correct for `n = 0` at the one
call site that can pass `0`, which is handled separately in `swing_high` /
`swing_low`). -/
def lastN {α : Type} (n : Nat) (xs : List α) : List α :=
  xs.drop (xs.length - n)

/-- `indicators.body_ratio`: |close - open| / (high - low), `0.0` when the
bar has zero range. -/
def body_ratio (candle : Candle) : ℚ :=
  let total_range := candle.high - candle.low
  if total_range = 0 then 0 else |candle.close - candle.open_| / total_range

/-- `indicators.is_bullish`. -/
def is_bullish (candle : Candle) : Bool :=
  candle.close > candle.open_

/-- `indicators.is_bearish`. -/
def is_bearish (candle : Candle) : Bool :=
  candle.close < candle.open_

/-- `indicators.compute_avg_volume`: `1.0` on an empty list, the mean of all
volumes when fewer than `period` bars are given, else the mean of the last
`period` volumes. -/
def compute_avg_volume (candles : List Candle) (period : Nat) : ℚ :=
  if candles = [] then 1
  else
    let vols := candles.map (fun c => c.volume)
    if vols.length < period then vols.sum / (vols.length : ℚ)
    else (lastN period vols).sum / (period : ℚ)

/-- True range of a bar given its predecessor. -/
def true_range (prev curr : Candle) : ℚ :=
  max (curr.high - curr.low) (max |curr.high - prev.close| |curr.low - prev.close|)

/-- The list of true ranges of consecutive bar pairs. -/
def true_ranges : List Candle → List ℚ
  | [] => []
  | [_] => []
  | a :: b :: rest => true_range a b :: true_ranges (b :: rest)

/-- Modelled from the spec: the body of `indicators.compute_ATR` delegates to
the external compiled `jesse_rust.atr` library, whose source is not part of
this repository; the spec describes it as "a 14-period average-true-range"
with Wilder's smoothing.  The guard `len(candles) < period + 1 → 0.0` is the
repository's own code. -/
def compute_ATR (candles : List Candle) (period : Nat) : ℚ :=
  if candles.length < period + 1 then 0
  else if period = 0 then 0
  else
    let trs := true_ranges candles
    let init := (trs.take period).sum / (period : ℚ)
    (trs.drop period).foldl
      (fun acc tr => (acc * ((period : ℚ) - 1) + tr) / (period : ℚ)) init

/-- `ORBFVGEngine._detect_orb`: extract ORH/ORL from the opening M5 candle;
valid iff the range is at least `min_range`. -/
def detect_orb (m5_candle : Candle) (min_range : ℚ) : ORBLevel :=
  let high := m5_candle.high
  let low := m5_candle.low
  let rng := high - low
  { high := high, low := low, range_ := rng, valid := rng ≥ min_range }

/-- `ORBFVGEngine._detect_breakout`: a bar is a valid breakout when its close
crosses ORH upward (bullish) or ORL downward (bearish), its body ratio meets
`body_ratio_breakout`, and its volume is at least
`avg_vol * vol_ruptura_ratio`.  Returns the direction, `none` when invalid.
The `prev_candle` parameter is present in the source but unread. -/
def detect_breakout (candle prev_candle : Candle) (orh orl : ℚ) (avg_vol : ℚ)
    (config : StrategyConfig) : Option Direction :=
  let br := body_ratio candle
  let vol := candle.volume
  let close := candle.close
  let _ := prev_candle
  if close > orh ∧ br ≥ config.body_ratio_breakout ∧ vol ≥ avg_vol * config.vol_ruptura_ratio then
    some Direction.bullish
  else if close < orl ∧ br ≥ config.body_ratio_breakout ∧ vol ≥ avg_vol * config.vol_ruptura_ratio then
    some Direction.bearish
  else none

/-- `ORBFVGEngine._compute_fvg`: three-candle gap test, gated by
`min_fvg_size_atr * atr` unless the ATR is zero. -/
def compute_fvg (c_prev2 c_prev1 c_curr : Candle) (direction : Direction)
    (atr_m1 : ℚ) (config : StrategyConfig) : Option FVG :=
  let _ := c_prev1
  match direction with
  | Direction.bullish =>
    if c_curr.low > c_prev2.high then
      let bottom := c_prev2.high
      let top := c_curr.low
      let size := top - bottom
      if atr_m1 = 0 ∨ size ≥ config.min_fvg_size_atr * atr_m1 then
        some { top := top, bottom := bottom, midpoint := (top + bottom) / 2,
               direction := Direction.bullish, size := size }
      else none
    else none
  | Direction.bearish =>
    if c_curr.high < c_prev2.low then
      let top := c_prev2.low
      let bottom := c_curr.high
      let size := top - bottom
      if atr_m1 = 0 ∨ size ≥ config.min_fvg_size_atr * atr_m1 then
        some { top := top, bottom := bottom, midpoint := (top + bottom) / 2,
               direction := Direction.bearish, size := size }
      else none
    else none

/-- `ORBFVGEngine._price_in_fvg`: any part of the candle overlaps the gap
zone. -/
def price_in_fvg (candle : Candle) (fvg : FVG) : Bool :=
  candle.low ≤ fvg.top ∧ candle.high ≥ fvg.bottom

/-- `ORBFVGEngine._setup_invalidated`: for a bearish gap a new high above ORH
cancels the setup, for a bullish gap a new low below ORL does.  The source's
close-beyond-the-gap branches are explicit no-ops (`pass`). -/
def setup_invalidated (candle : Candle) (fvg : FVG) (orb : ORBLevel)
    (config : StrategyConfig) : Bool :=
  let _ := config
  match fvg.direction with
  | Direction.bearish => candle.high > orb.high
  | Direction.bullish => candle.low < orb.low

/-- `ORBFVGEngine._is_engulfing`: minimum body vs ATR (skipped at zero ATR),
minimum volume vs average, and the engulfing shape for the setup's
direction. -/
def is_engulfing (curr prev : Candle) (direction : Direction)
    (atr_m1 avg_vol : ℚ) (config : StrategyConfig) : Bool :=
  let body_size := |curr.close - curr.open_|
  if atr_m1 > 0 ∧ body_size < config.p_cuerpo_min * atr_m1 then false
  else if curr.volume < config.p_vol_min * avg_vol then false
  else
    match direction with
    | Direction.bearish =>
      is_bearish curr && decide (curr.open_ ≥ prev.close) && decide (curr.close ≤ prev.open_)
    | Direction.bullish =>
      is_bullish curr && decide (curr.open_ ≤ prev.close) && decide (curr.close ≥ prev.open_)

/-- `ORBFVGEngine._swing_high`: highest high of the last `lookback` bars
(Python `candles[-lookback:]`; for `lookback = 0` that slice is the whole
list). -/
def swing_high (candles : List Candle) (lookback : Nat) : ℚ :=
  let recent := if lookback = 0 then candles
    else if candles.length ≥ lookback then lastN lookback candles else candles
  match recent.map (fun c => c.high) with
  | [] => 0
  | h :: t => t.foldl max h

/-- `ORBFVGEngine._swing_low`: lowest low of the last `lookback` bars. -/
def swing_low (candles : List Candle) (lookback : Nat) : ℚ :=
  let recent := if lookback = 0 then candles
    else if candles.length ≥ lookback then lastN lookback candles else candles
  match recent.map (fun c => c.low) with
  | [] => 0
  | h :: t => t.foldl min h

/-- `ORBFVGEngine._is_premium_signal`: wick-to-range ratio of the confirming
bar is at least 60%. -/
def is_premium_signal (curr prev : Candle) : Bool :=
  let _ := prev
  let body := |curr.close - curr.open_|
  let total := curr.high - curr.low
  if total = 0 then false
  else (total - body) / total ≥ 60 / 100

/-- `ORBFVGEngine._calc_position_size`:
`(account * risk_pct) / (risk_pips * pip_value)`, `0.0` when `risk_pips` or
`pip_value` is not positive. -/
def calc_position_size (account risk_pct risk_pips : ℚ) (pip_value : ℚ := 1) : ℚ :=
  if risk_pips ≤ 0 ∨ pip_value ≤ 0 then 0
  else (account * risk_pct) / (risk_pips * pip_value)

/-- The stop-loss buffer `buffer_sl_factor * atr_m1` of
`ORBFVGEngine._build_signal`. -/
def signal_buffer (config : StrategyConfig) (atr_m1 : ℚ) : ℚ :=
  config.buffer_sl_factor * atr_m1

/-- The entry price of `ORBFVGEngine._build_signal`: gap top for a short,
gap bottom for a long. -/
def signal_entry (fvg : FVG) : ℚ :=
  match fvg.direction with
  | Direction.bearish => fvg.top
  | Direction.bullish => fvg.bottom

/-- The stop price of `ORBFVGEngine._build_signal`: the worse of the gap
boundary and the swing extreme, offset by the ATR buffer. -/
def signal_stop (fvg : FVG) (m1_candles : List Candle) (atr_m1 : ℚ)
    (config : StrategyConfig) : ℚ :=
  match fvg.direction with
  | Direction.bearish =>
    max fvg.top (swing_high m1_candles config.swing_lookback) + signal_buffer config atr_m1
  | Direction.bullish =>
    min fvg.bottom (swing_low m1_candles config.swing_lookback) - signal_buffer config atr_m1

/-- The take-profit price of `ORBFVGEngine._build_signal`: entry offset by
`rr_target` times the entry-stop distance. -/
def signal_tp (fvg : FVG) (m1_candles : List Candle) (atr_m1 : ℚ)
    (config : StrategyConfig) : ℚ :=
  let entry := signal_entry fvg
  let stop := signal_stop fvg m1_candles atr_m1 config
  match fvg.direction with
  | Direction.bearish => entry - config.rr_target * |entry - stop|
  | Direction.bullish => entry + config.rr_target * |entry - stop|

/-- The string side tag used inside the generated signal id. -/
def side_tag : Side → String
  | Side.SHORT => "SHORT"
  | Side.LONG => "LONG"

/-- `ORBFVGEngine._build_signal`.  The signal id is built in the source from
the current UTC wall-clock time and a fresh uuid4 fragment; those two
environment-supplied strings are made explicit here as the `nonce`
argument. -/
def build_signal (confirm_candle : Candle) (fvg : FVG) (orb : ORBLevel)
    (m1_candles : List Candle) (atr_m1 account_size : ℚ)
    (config : StrategyConfig) (premium : Bool) (nonce : String × String) :
    Option TradeSignal :=
  let entry := signal_entry fvg
  let stop := signal_stop fvg m1_candles atr_m1 config
  let tp := signal_tp fvg m1_candles atr_m1 config
  let side : Side :=
    match fvg.direction with
    | Direction.bearish => Side.SHORT
    | Direction.bullish => Side.LONG
  let risk_pips := |entry - stop|
  if risk_pips = 0 then none
  else
    some
      { signal_id := nonce.1 ++ "_ORB_" ++ side_tag side ++ "_" ++ nonce.2,
        timestamp := confirm_candle.timestamp,
        direction := side,
        orh := orb.high, orl := orb.low,
        fvg_top := fvg.top, fvg_bottom := fvg.bottom,
        entry := entry, stop := stop, tp := tp,
        risk_pips := risk_pips,
        position_size := calc_position_size account_size config.risk_per_trade risk_pips,
        confidence := if premium then Confidence.premium else Confidence.standard,
        atr_m1 := atr_m1 }

/-- The per-evaluation inputs of `run_session` that stay fixed across the
candle loop: the full M1 list (for index-based lookback slices), the ORB
levels, the precomputed ATR and average volume, the account size, the
config, and the signal-id nonce. -/
structure EngineEnv where
  m1_full : List Candle
  orb : ORBLevel
  atr_m1 : ℚ
  avg_vol_m1 : ℚ
  account_size : ℚ
  config : StrategyConfig
  nonce : String × String
deriving Repr

/-- One iteration of the `for idx, candle in enumerate(m1_candles)` loop of
`ORBFVGEngine.run_session`: `.inl r` models an early `return r`, `.inr st`
models falling through to the next candle with updated state. -/
def session_candle_step (env : EngineEnv) (candle : Candle) (idx : Nat)
    (prev : Option Candle) (st : SessionState) :
    Option TradeSignal ⊕ SessionState :=
  match st.fvg with
  | none =>
    match prev with
    | none => Sum.inr st
    | some prev_candle =>
      match detect_breakout candle prev_candle env.orb.high env.orb.low env.avg_vol_m1 env.config with
      | none => Sum.inr st
      | some direction =>
        if st.breakout_detected then Sum.inr st
        else
          let st1 := { st with breakout_detected := true, breakout_direction := some direction }
          if 2 ≤ idx then
            match compute_fvg (env.m1_full.getD (idx - 2) candle)
                (env.m1_full.getD (idx - 1) candle) candle direction env.atr_m1 env.config with
            | none => Sum.inr st1
            | some f =>
              Sum.inr { st1 with fvg := some f,
                                 retest_countdown := env.config.wait_retest_max_m1 }
          else Sum.inr st1
  | some f =>
    if st.setup_active then Sum.inr st
    else if st.retest_countdown ≤ 0 then Sum.inl none
    else
      let st2 := { st with retest_countdown := st.retest_countdown - 1 }
      if setup_invalidated candle f env.orb env.config then Sum.inl none
      else if price_in_fvg candle f then
        match prev with
        | none => Sum.inr st2
        | some prev_candle =>
          if is_engulfing candle prev_candle f.direction env.atr_m1 env.avg_vol_m1 env.config then
            match build_signal candle f env.orb (env.m1_full.take (idx + 1)) env.atr_m1
                env.account_size env.config (is_premium_signal candle prev_candle) env.nonce with
            | some s => Sum.inl (some s)
            | none => Sum.inr st2
          else Sum.inr st2
      else Sum.inr st2

/-- The candle loop of `ORBFVGEngine.run_session`, threading the index, the
previous candle and the working state; falls off the end with `none`. -/
def run_session_aux (env : EngineEnv) :
    List Candle → Nat → Option Candle → SessionState → Option TradeSignal
  | [], _, _, _ => none
  | candle :: rest, idx, prev, st =>
    match session_candle_step env candle idx prev st with
    | Sum.inl r => r
    | Sum.inr st' => run_session_aux env rest (idx + 1) (some candle) st'

/-- The `EngineEnv` that `run_session` fixes for the whole candle loop: the
ORB of the opening M5 candle, and the ATR and average volume computed once
over the session's last 20 M1 bars. -/
def mk_env (m1_candles : List Candle) (c0 : Candle) (account_size : ℚ)
    (config : StrategyConfig) (nonce : String × String) : EngineEnv :=
  { m1_full := m1_candles, orb := detect_orb c0 config.min_range_pips,
    atr_m1 := compute_ATR (lastN 20 m1_candles) 14,
    avg_vol_m1 := compute_avg_volume (lastN 20 m1_candles) 20,
    account_size := account_size, config := config, nonce := nonce }

/-- `ORBFVGEngine.run_session`: evaluate one session.  Empty inputs or an
invalid (too narrow) opening range short-circuit to `none`; otherwise the ATR
and average volume are computed once over the session's last 20 M1 bars and
the candle loop runs from a fresh state. -/
def run_session (m5_candles m1_candles : List Candle) (account_size : ℚ)
    (config : StrategyConfig) (nonce : String × String) : Option TradeSignal :=
  match m5_candles, m1_candles with
  | [], _ => none
  | _, [] => none
  | c0 :: _, _ :: _ =>
    let orb := detect_orb c0 config.min_range_pips
    if orb.valid then
      run_session_aux (mk_env m1_candles c0 account_size config nonce)
        m1_candles 0 none initial_session_state
    else none

/-- Which threshold tripped the breaker (the source stores a formatted reason
string; only its identity matters here). -/
inductive TripReason
  | daily_losses
  | daily_drawdown
  | monthly_drawdown
deriving DecidableEq, Repr

/-- `CircuitBreaker` state (`circuit_breaker.py`): thresholds plus the
running counters, the tripped flag and its reason.  The observer-callback
list is I/O-only and not modelled. -/
structure CircuitBreaker where
  max_daily_losses : Nat
  max_daily_drawdown_pct : ℚ
  max_monthly_drawdown_pct : ℚ
  daily_losses : Nat
  daily_drawdown_pct : ℚ
  monthly_drawdown_pct : ℚ
  triggered : Bool
  triggered_reason : Option TripReason
deriving DecidableEq, Repr

/-- A fresh `CircuitBreaker(...)` with zeroed counters. -/
def CircuitBreaker.mk_armed (max_daily_losses : Nat)
    (max_daily_drawdown_pct max_monthly_drawdown_pct : ℚ) : CircuitBreaker :=
  { max_daily_losses := max_daily_losses,
    max_daily_drawdown_pct := max_daily_drawdown_pct,
    max_monthly_drawdown_pct := max_monthly_drawdown_pct,
    daily_losses := 0, daily_drawdown_pct := 0, monthly_drawdown_pct := 0,
    triggered := false, triggered_reason := none }

/-- `CircuitBreaker._check`: no-op when already tripped, else trip on the
first exceeded threshold in priority order (daily losses, intraday drawdown,
monthly drawdown).  The second component is the `Returns True if just
triggered` result. -/
def CircuitBreaker.check_thresholds (b : CircuitBreaker) : CircuitBreaker × Bool :=
  if b.triggered then (b, false)
  else
    let reason : Option TripReason :=
      if b.daily_losses ≥ b.max_daily_losses then some TripReason.daily_losses
      else if b.daily_drawdown_pct ≥ b.max_daily_drawdown_pct then some TripReason.daily_drawdown
      else if b.monthly_drawdown_pct ≥ b.max_monthly_drawdown_pct then some TripReason.monthly_drawdown
      else none
    match reason with
    | some r => ({ b with triggered := true, triggered_reason := some r }, true)
    | none => (b, false)

/-- `CircuitBreaker.record_loss`: bump the loss counter and both drawdown
accumulators, then re-check thresholds. -/
def CircuitBreaker.record_loss (b : CircuitBreaker) (loss_pct : ℚ) :
    CircuitBreaker × Bool :=
  CircuitBreaker.check_thresholds
    { b with daily_losses := b.daily_losses + 1,
             daily_drawdown_pct := b.daily_drawdown_pct + loss_pct,
             monthly_drawdown_pct := b.monthly_drawdown_pct + loss_pct }

/-- `CircuitBreaker.record_win`: relieve the intraday drawdown accumulator,
floored at zero; nothing else changes. -/
def CircuitBreaker.record_win (b : CircuitBreaker) (gain_pct : ℚ) : CircuitBreaker :=
  { b with daily_drawdown_pct := max 0 (b.daily_drawdown_pct - gain_pct) }

/-- `CircuitBreaker.is_triggered`. -/
def CircuitBreaker.is_triggered (b : CircuitBreaker) : Bool :=
  b.triggered

/-- `CircuitBreaker.new_day`: reset the loss counter, the intraday drawdown
and the tripped flag (with its reason). -/
def CircuitBreaker.new_day (b : CircuitBreaker) : CircuitBreaker :=
  { b with daily_losses := 0, daily_drawdown_pct := 0,
           triggered := false, triggered_reason := none }

/-- `CircuitBreaker.new_month`: `new_day` plus a zeroed monthly drawdown. -/
def CircuitBreaker.new_month (b : CircuitBreaker) : CircuitBreaker :=
  { b.new_day with monthly_drawdown_pct := 0 }

/-- `BacktestRunner._simulate_trade`: walk the remaining M1 candles; within
each bar the take-profit comparison is made before the stop comparison; a
stop exit is recorded one pip against the position; running off the end of
the list yields an expired record at the entry price.  The fixed
`slippage_pips = 1.0` of the source. -/
def simulate_trade (signal : TradeSignal) (remaining_m1 : List Candle)
    (pip_value : ℚ := 1) : TradeRecord :=
  let slippage_pips : ℚ := 1
  match remaining_m1 with
  | [] =>
    { signal := signal, outcome := Outcome.expired, exit_price := signal.entry,
      exit_timestamp := "", pnl_r := 0, pnl_usd := 0, slippage_pips := slippage_pips }
  | candle :: rest =>
    let h := candle.high
    let l := candle.low
    match signal.direction with
    | Side.SHORT =>
      if l ≤ signal.tp then
        { signal := signal, outcome := Outcome.win_tp, exit_price := signal.tp,
          exit_timestamp := candle.timestamp, pnl_r := 3,
          pnl_usd := signal.risk_pips * pip_value * 3, slippage_pips := slippage_pips }
      else if h ≥ signal.stop then
        { signal := signal, outcome := Outcome.loss_sl,
          exit_price := signal.stop + slippage_pips,
          exit_timestamp := candle.timestamp, pnl_r := -1,
          pnl_usd := -(signal.risk_pips * pip_value * 1), slippage_pips := slippage_pips }
      else simulate_trade signal rest pip_value
    | Side.LONG =>
      if h ≥ signal.tp then
        { signal := signal, outcome := Outcome.win_tp, exit_price := signal.tp,
          exit_timestamp := candle.timestamp, pnl_r := 3,
          pnl_usd := signal.risk_pips * pip_value * 3, slippage_pips := slippage_pips }
      else if l ≤ signal.stop then
        { signal := signal, outcome := Outcome.loss_sl,
          exit_price := signal.stop - slippage_pips,
          exit_timestamp := candle.timestamp, pnl_r := -1,
          pnl_usd := -(signal.risk_pips * pip_value * 1), slippage_pips := slippage_pips }
      else simulate_trade signal rest pip_value

/-- The Trade Simulator exactly as the claim describes it: walk the bars in
order, checking target before stop within each bar (long: target at
`high ≥ tp`, stop at `low ≤ stop`; short mirrored on low/high); a target hit
gives (target-hit, +3R, exit = target, that bar's timestamp); a stop hit
gives (stop-hit, -1R, exit = stop adjusted one pip against the position);
falling off the end gives (expired, 0, exit = entry, empty timestamp). -/
def claim_simulate (signal : TradeSignal) : List Candle → Outcome × ℚ × ℚ × String
  | [] => (Outcome.expired, 0, signal.entry, "")
  | bar :: rest =>
    match signal.direction with
    | Side.LONG =>
      if bar.high ≥ signal.tp then (Outcome.win_tp, 3, signal.tp, bar.timestamp)
      else if bar.low ≤ signal.stop then (Outcome.loss_sl, -1, signal.stop - 1, bar.timestamp)
      else claim_simulate signal rest
    | Side.SHORT =>
      if bar.low ≤ signal.tp then (Outcome.win_tp, 3, signal.tp, bar.timestamp)
      else if bar.high ≥ signal.stop then (Outcome.loss_sl, -1, signal.stop + 1, bar.timestamp)
      else claim_simulate signal rest

/-- The fields of a `TradeRecord` that the simulator claim talks about:
outcome, risk-unit result, exit price, exit timestamp. -/
def record_view (t : TradeRecord) : Outcome × ℚ × ℚ × String :=
  (t.outcome, t.pnl_r, t.exit_price, t.exit_timestamp)

/-- Which governor call the session loop makes after a trade closes, and the
fraction passed to it (lines 279-289 of `backtest_runner.py`): the loss
branch passes `(account_size * risk_per_trade) / account_size` to
`record_loss`, the win branch passes `pnl_usd / account_size` to
`record_win`, an expired trade feeds nothing. -/
inductive GovernorCall
  | loss (fraction : ℚ)
  | win (fraction : ℚ)
deriving DecidableEq, Repr

/-- The governor-notification step of `BacktestRunner._run_session_loop`. -/
def governor_feed (record : TradeRecord) (run_account_size risk_per_trade : ℚ) :
    Option GovernorCall :=
  let risk_amount := run_account_size * risk_per_trade
  let loss_pct := risk_amount / run_account_size
  if record.is_loss then some (GovernorCall.loss loss_pct)
  else if record.is_win then some (GovernorCall.win (record.pnl_usd / run_account_size))
  else none

/-- Loop of `BacktestRunner._find_candle_index`. -/
def find_candle_index_go (p : String) : List Candle → Int → Option Int
  | [], _ => none
  | c :: rest, i =>
    if c.timestamp.take p.length == p then some i else find_candle_index_go p rest (i + 1)

/-- `BacktestRunner._find_candle_index`: first candle whose timestamp starts
with the first 16 characters of `timestamp`; falls back to `len - 1`. -/
def find_candle_index (candles : List Candle) (timestamp : String) : Int :=
  let p := timestamp.take 16
  match find_candle_index_go p candles 0 with
  | some i => i
  | none => (candles.length : Int) - 1

/-- One day's session inputs in `BacktestRunner._run_session_loop` (the
`{date, m5, m1}` dicts built by `_split_into_sessions`; only the month of the
date is read by the loop). -/
structure SessionData where
  month : Nat
  m5 : List Candle
  m1 : List Candle
deriving Repr

/-- The accumulator state of `BacktestRunner._run_session_loop`. -/
structure LoopState where
  trades : List TradeRecord
  trading_days : Nat
  missing_days : Nat
  current_equity : ℚ
  last_month : Option Nat
  breaker : CircuitBreaker
deriving Repr

/-- Which path one loop iteration took: the missing-data skip, the
breaker-tripped skip, or a normal evaluation of the day. -/
inductive DayPath
  | missing
  | skipped_by_breaker
  | evaluated
deriving DecidableEq, Repr

/-- One iteration of the `for session in sessions` loop of
`BacktestRunner._run_session_loop`: count missing days, roll the month, call
`new_day`, check `is_triggered`, run the engine, simulate the trade, update
the equity, and notify the circuit breaker. -/
def session_step (cfg : StrategyConfig) (run_account_size pip_value : ℚ)
    (nonce : String × String) (st : LoopState) (session : SessionData) :
    LoopState × DayPath :=
  if session.m1 = [] ∨ session.m5 = [] then
    ({ st with missing_days := st.missing_days + 1 }, DayPath.missing)
  else
    let st := { st with trading_days := st.trading_days + 1 }
    let breaker :=
      match st.last_month with
      | some lm => if session.month ≠ lm then st.breaker.new_month else st.breaker
      | none => st.breaker
    let st := { st with last_month := some session.month, breaker := breaker.new_day }
    if st.breaker.is_triggered then (st, DayPath.skipped_by_breaker)
    else
      match run_session session.m5 session.m1 st.current_equity cfg nonce with
      | none => (st, DayPath.evaluated)
      | some signal =>
        let confirmation_idx := find_candle_index session.m1 signal.timestamp
        let remaining_m1 :=
          if confirmation_idx ≥ 0 then session.m1.drop (confirmation_idx.toNat + 1) else []
        let record := simulate_trade signal remaining_m1 pip_value
        let st := { st with trades := st.trades ++ [record],
                            current_equity := st.current_equity + record.pnl_usd }
        let breaker2 :=
          match governor_feed record run_account_size cfg.risk_per_trade with
          | some (GovernorCall.loss f) => (st.breaker.record_loss f).1
          | some (GovernorCall.win f) => st.breaker.record_win f
          | none => st.breaker
        ({ st with breaker := breaker2 }, DayPath.evaluated)

/-- The value of the KPI profit factor: a rational, or the `float("inf")` the
source produces when the gross loss is not positive. -/
inductive ProfitFactor
  | fin (q : ℚ)
  | inf
deriving DecidableEq, Repr

/-- The profit-factor computation of `ORBKPICalculator.compute`
(`kpi_calculator.py`): `0.0` for an empty trade list (the zeroed-KPI early
return), else gross profit over gross loss, `float("inf")` when the gross
loss is not `> 0`. -/
def compute_profit_factor (trades : List TradeRecord) : ProfitFactor :=
  if trades = [] then ProfitFactor.fin 0
  else
    let wins := trades.filter (fun t => t.is_win)
    let losses := trades.filter (fun t => t.is_loss)
    let gross_profit := (wins.map (fun t => t.pnl_usd)).sum
    let gross_loss := (losses.map (fun t => |t.pnl_usd|)).sum
    if gross_loss > 0 then ProfitFactor.fin (gross_profit / gross_loss)
    else ProfitFactor.inf

/-- The result of `BootstrapAnalyzer.run_bootstrap`: the DLL-missing error
dict, the degenerate empty-trade-list dict (keys `net_profit_95_ci` and
`max_drawdown_95_ci`), or the full result assembled from the DLL's output. -/
inductive BootstrapOutput
  | dll_not_loaded
  | empty_result (net_profit_95_ci : ℚ × ℚ) (max_drawdown_95_ci : ℚ × ℚ)
  | full_result (net_profit_95_ci : ℚ × ℚ) (max_drawdown_95_ci_pct : ℚ × ℚ)
      (iterations : Nat) (sample_size : Nat)
deriving DecidableEq, Repr

/-- `BootstrapAnalyzer.run_bootstrap` (`bootstrap_analyzer.py`).  The
resampling itself lives in an external compiled DLL, modelled here as the
function argument `dll_run`; the second component of the result counts how
many times that routine was invoked. -/
def run_bootstrap (lib_loaded : Bool)
    (dll_run : List ℚ → ℚ → Nat → (ℚ × ℚ) × (ℚ × ℚ))
    (trades : List TradeRecord) (initial_equity : ℚ) (iterations : Nat) :
    BootstrapOutput × Nat :=
  if ¬ lib_loaded then (BootstrapOutput.dll_not_loaded, 0)
  else if trades = [] then (BootstrapOutput.empty_result (0, 0) (0, 0), 0)
  else
    let pnl_values := trades.map (fun t => t.pnl_usd)
    let r := dll_run pnl_values initial_equity iterations
    (BootstrapOutput.full_result r.1 r.2 iterations pnl_values.length, 1)

/-- A strategy configuration used by the concrete sessions below: thresholds
relaxed where a claim does not constrain them, retest budget of 5 bars,
0.5% risk per trade, lookback of 2 bars for the swing extreme. -/
def exCfg : StrategyConfig :=
  { min_range_pips := 1, vol_ruptura_ratio := 0, body_ratio_breakout := 0,
    min_fvg_size_atr := 1 / 10, p_cuerpo_min := 1 / 10, p_vol_min := 0,
    wait_retest_max_m1 := 5, rr_target := 3, buffer_sl_factor := 1 / 10,
    swing_lookback := 2, risk_per_trade := 1 / 200, max_daily_losses := 2,
    max_daily_drawdown_pct := 1 / 50, max_monthly_drawdown_pct := 1 / 10 }

/-- Opening M5 candle: range 100-110, so the opening range is valid. -/
def exOpen : Candle :=
  { timestamp := "2024-01-02T09:30", open_ := 105, high := 110, low := 100,
    close := 105, volume := 50 }

/-- Coarse bars of the example sessions. -/
def exM5 : List Candle := [exOpen]

/-- M1 bar before the breakout; its low (104) becomes the gap top. -/
def exB0 : Candle :=
  { timestamp := "2024-01-02T09:35", open_ := 105, high := 106, low := 104,
    close := 105, volume := 10 }

/-- Second pre-breakout M1 bar, inside the opening range. -/
def exB1 : Candle :=
  { timestamp := "2024-01-02T09:36", open_ := 104, high := 105, low := 103,
    close := 104, volume := 10 }

/-- Bearish breakout bar: closes at 99, below ORL = 100, and its high
(103.5) sits below `exB0`'s low (104), forming a bearish gap
[103.5, 104]. -/
def exB2 : Candle :=
  { timestamp := "2024-01-02T09:37", open_ := 103, high := 207 / 2, low := 197 / 2,
    close := 99, volume := 10 }

/-- Confirming bar one bar after the gap: overlaps the gap zone, bearish
engulfing versus `exB2`, and its high 104.5 pushes the swing high above the
gap top, so the stop distance is 0.5. -/
def exB3sig : Candle :=
  { timestamp := "2024-01-02T09:38", open_ := 519 / 5, high := 209 / 2, low := 100,
    close := 100, volume := 10 }

/-- Variant confirming bar whose high (103.9) stays at or below the gap top,
so the computed stop equals the entry and the stop distance is zero. -/
def exB3zero : Candle :=
  { timestamp := "2024-01-02T09:38", open_ := 519 / 5, high := 1039 / 10, low := 100,
    close := 100, volume := 10 }

/-- Four-bar session (fewer than 15 bars, so the ATR guard yields 0) that
produces a short signal with stop distance 1/2. -/
def exM1sig : List Candle := [exB0, exB1, exB2, exB3sig]

/-- The same session with the zero-stop-distance confirming bar. -/
def exM1zero : List Candle := [exB0, exB1, exB2, exB3zero]

/-- Bar `i` of the session is accepted by the engine's breakout test: it has
a predecessor (the scan only calls `_detect_breakout` from the second bar
on) and `_detect_breakout` validates it against the average volume the
engine precomputed once from the session's last 20 M1 bars. -/
def breakout_accepted (m1_candles : List Candle) (orb : ORBLevel)
    (config : StrategyConfig) (i : Nat) : Bool :=
  if 1 ≤ i ∧ i < m1_candles.length then
    (detect_breakout (m1_candles.getD i default) (m1_candles.getD (i - 1) default)
      orb.high orb.low (compute_avg_volume (lastN 20 m1_candles) 20) config).isSome
  else false

/-- The claim's volume reference: the average volume of the 20 bars
preceding bar `i` (all preceding bars when fewer than 20 exist). -/
def trailing_avg_volume (m1_candles : List Candle) (i : Nat) : ℚ :=
  let window := (m1_candles.take i).drop (i - 20)
  if window = [] then 0
  else (window.map (fun c => c.volume)).sum / (window.length : ℚ)

/-- The breakout condition exactly as the claim states it: the close crosses
the opening-range boundary in one direction, the body-to-range ratio meets
the configured threshold, and the volume is at least the configured multiple
of the trailing-20-bar average volume. -/
def claim_breakout (m1_candles : List Candle) (orb : ORBLevel)
    (config : StrategyConfig) (i : Nat) : Bool :=
  let c := m1_candles.getD i default
  (decide (c.close > orb.high) || decide (c.close < orb.low)) &&
  decide (body_ratio c ≥ config.body_ratio_breakout) &&
  decide (c.volume ≥ trailing_avg_volume m1_candles i * config.vol_ruptura_ratio)

/-- `exCfg` with a volume-ratio threshold of 1, so the breakout volume test
actually bites. -/
def exCfgVol : StrategyConfig :=
  { exCfg with vol_ruptura_ratio := 1 }

/-- The opening range of the volume counterexample session. -/
def exOrb : ORBLevel :=
  { high := 110, low := 100, range_ := 10, valid := true }

/-- First bar of the volume session: volume 4000, far above the rest. -/
def exV0 : Candle :=
  { timestamp := "2024-01-03T09:35", open_ := 105, high := 106, low := 104,
    close := 105, volume := 4000 }

/-- Filler bar of the volume session: inside the range, volume 100. -/
def exVFill : Candle :=
  { timestamp := "2024-01-03T09:36", open_ := 105, high := 106, low := 104,
    close := 105, volume := 100 }

/-- Breakout bar of the volume session: closes at 99 below ORL with volume
250 — above the engine's session average (107.5) but below the trailing
average of the 20 preceding bars (295). -/
def exV20 : Candle :=
  { timestamp := "2024-01-03T09:56", open_ := 103, high := 207 / 2, low := 197 / 2,
    close := 99, volume := 250 }

/-- A 21-bar session: the heavy-volume bar 0 is inside the trailing window
of bar 20 but outside the session's last-20 window. -/
def exM1vol : List Candle :=
  exV0 :: List.replicate 19 exVFill ++ [exV20]

/-- The bearish gap the engine computes on `exB2`: zone [103.5, 104]. -/
def exFvg : FVG :=
  { top := 104, bottom := 207 / 2, midpoint := 415 / 4,
    direction := Direction.bearish, size := 1 / 2 }

/-- The short signal `run_session exM5 exM1sig 10000 exCfg ("T1", "AAAA")`
produces: entry 104, stop 104.5, take-profit 102.5, stop distance 1/2,
position size (10000 × 0.005) / 0.5 = 100. -/
def exSignal : TradeSignal :=
  { signal_id := "T1_ORB_SHORT_AAAA", timestamp := "2024-01-02T09:38",
    direction := Side.SHORT, orh := 110, orl := 100, fvg_top := 104,
    fvg_bottom := 207 / 2, entry := 104, stop := 209 / 2, tp := 205 / 2,
    risk_pips := 1 / 2, position_size := 100, confidence := Confidence.standard,
    atr_m1 := 0 }

/-- A follow-up bar whose low reaches the short take-profit of
`exSignal`. -/
def exTpHitBar : Candle :=
  { timestamp := "2024-01-02T09:39", open_ := 103, high := 104, low := 102,
    close := 102, volume := 5 }

/-- A winning trade record: `exSignal` simulated against a bar that hits the
target, with pnl_usd = 0.5 × 1 × 3 = 1.5. -/
def exWinRecord : TradeRecord :=
  simulate_trade exSignal [exTpHitBar]

/-- An expired trade record: `exSignal` simulated against no remaining
bars. -/
def exExpiredRecord : TradeRecord :=
  simulate_trade exSignal []

/-- C2 (confirmed): for every signal and every sequence of remaining fine
bars, the Trade Simulator walks the bars in order checking target before
stop within each bar (long: target when high >= tp, stop when low <= stop;
short mirrored on low/high); a target hit returns target-hit, +3
risk-units, exit price equal to the target with no slippage; a stop hit
returns stop-hit, -1 risk-unit, exit price adjusted one pip against the
position (stop + 1 short, stop - 1 long); no trigger returns expired, 0,
exit price equal to entry, empty exit timestamp. -/
theorem c2_simulator_matches_claim (signal : TradeSignal)
    (remaining_m1 : List Candle) (pip_value : ℚ) :
    record_view (simulate_trade signal remaining_m1 pip_value) =
      claim_simulate signal remaining_m1 := by
  induction remaining_m1 with
  | nil => cases signal.direction <;> rfl
  | cons bar rest ih =>
    cases hd : signal.direction <;>
      simp only [simulate_trade, claim_simulate, hd, record_view] <;>
      split_ifs <;> first | rfl | exact ih

/-- C3 counterexample: a winning trade whose governor feed is
pnl_usd / account_size = 1.5 / 10000 = 3/20000, which is not the configured
risk-per-trade fraction 1/200. -/
theorem c3_counterexample :
    governor_feed exWinRecord 10000 exCfg.risk_per_trade =
      some (GovernorCall.win (3 / 20000)) ∧
    (3 / 20000 : ℚ) ≠ exCfg.risk_per_trade := by
  have h1 : exWinRecord.is_loss = false := by with_unfolding_all decide
  have h2 : exWinRecord.is_win = true := by with_unfolding_all decide
  have h3 : exWinRecord.pnl_usd = 3 / 2 := by with_unfolding_all decide
  refine ⟨?_, ?_⟩
  · simp only [governor_feed, h1, h2, h3, Bool.false_eq_true, if_false, if_true]
    norm_num
  · with_unfolding_all decide

/-- C3 amended: for every completed trade, the loss branch feeds
record_loss exactly the configured risk-per-trade fraction (the realized
P&L never enters), while the win branch feeds record_win the trade's
realized currency P&L divided by the initial account size — not the
configured fraction. -/
theorem c3_amended_governor_feed (record : TradeRecord)
    (run_account_size risk_per_trade : ℚ) (h : run_account_size ≠ 0) :
    governor_feed record run_account_size risk_per_trade =
      (if record.is_loss then some (GovernorCall.loss risk_per_trade)
       else if record.is_win then
         some (GovernorCall.win (record.pnl_usd / run_account_size))
       else none) := by
  simp only [governor_feed]
  rw [mul_div_cancel_left₀ _ h]

/-- Witness for C3 amended at the concrete winning record. -/
theorem c3_witness :
    governor_feed exWinRecord 10000 exCfg.risk_per_trade =
      some (GovernorCall.win (exWinRecord.pnl_usd / 10000)) := by
  rw [c3_amended_governor_feed exWinRecord 10000 exCfg.risk_per_trade (by norm_num)]
  have h1 : exWinRecord.is_loss = false := by with_unfolding_all decide
  have h2 : exWinRecord.is_win = true := by with_unfolding_all decide
  simp only [h1, h2, Bool.false_eq_true, if_false, if_true]

/-- C4 (confirmed): in every iteration of the session loop, `new_day()` runs
immediately before the `is_triggered()` check and unconditionally clears the
tripped flag, so the skip-day-on-tripped-breaker branch can never be
taken. -/
theorem c4_breaker_skip_unreachable (cfg : StrategyConfig)
    (run_account_size pip_value : ℚ) (nonce : String × String)
    (st : LoopState) (session : SessionData) :
    (session_step cfg run_account_size pip_value nonce st session).2 ≠
      DayPath.skipped_by_breaker := by
  unfold session_step
  split
  · simp
  · dsimp only [CircuitBreaker.is_triggered, CircuitBreaker.new_day]
    simp only [Bool.false_eq_true, if_false]
    split <;> simp

/-- C8 (confirmed): `new_day()` zeroes the consecutive-loss counter and the
intraday drawdown, clears the tripped flag and its reason, and leaves the
monthly drawdown accumulator (and all thresholds) unchanged; only
`new_month()` additionally zeroes the monthly accumulator. -/
theorem c8_new_day_frame (b : CircuitBreaker) :
    b.new_day.daily_losses = 0 ∧ b.new_day.daily_drawdown_pct = 0 ∧
    b.new_day.triggered = false ∧ b.new_day.triggered_reason = none ∧
    b.new_day.monthly_drawdown_pct = b.monthly_drawdown_pct ∧
    b.new_day.max_daily_losses = b.max_daily_losses ∧
    b.new_day.max_daily_drawdown_pct = b.max_daily_drawdown_pct ∧
    b.new_day.max_monthly_drawdown_pct = b.max_monthly_drawdown_pct ∧
    b.new_month.monthly_drawdown_pct = 0 :=
  ⟨rfl, rfl, rfl, rfl, rfl, rfl, rfl, rfl, rfl⟩

/-- C9 (confirmed): with the resampling library loaded, an empty trade list
returns the degenerate zero-width interval ([0, 0] for both net profit and
max drawdown) and the resampling routine is invoked zero times, for every
routine, initial equity and iteration count. -/
theorem c9_bootstrap_empty (dll_run : List ℚ → ℚ → Nat → (ℚ × ℚ) × (ℚ × ℚ))
    (initial_equity : ℚ) (iterations : Nat) :
    run_bootstrap true dll_run [] initial_equity iterations =
      (BootstrapOutput.empty_result (0, 0) (0, 0), 0) := rfl

/-- C10 (confirmed): for every non-empty trade list whose trades all
expired (so there are no wins and no losses and both gross sums are zero),
the profit factor is +infinity, not 0. -/
theorem c10_profit_factor_all_expired (trades : List TradeRecord)
    (h1 : trades ≠ []) (h2 : ∀ t ∈ trades, t.outcome = Outcome.expired) :
    compute_profit_factor trades = ProfitFactor.inf := by
  unfold compute_profit_factor
  rw [if_neg h1]
  have hw : trades.filter (fun t => t.is_win) = [] := by
    rw [List.filter_eq_nil_iff]
    intro t ht
    simp [TradeRecord.is_win, h2 t ht]
  have hl : trades.filter (fun t => t.is_loss) = [] := by
    rw [List.filter_eq_nil_iff]
    intro t ht
    simp [TradeRecord.is_loss, h2 t ht]
  simp [hw, hl]

/-- Witness for C10 at a concrete all-expired singleton list. -/
theorem c10_witness :
    ([exExpiredRecord] : List TradeRecord) ≠ [] ∧
    compute_profit_factor [exExpiredRecord] = ProfitFactor.inf :=
  ⟨by decide, c10_profit_factor_all_expired [exExpiredRecord] (by decide)
    (by intro t ht; simp only [List.mem_singleton] at ht; subst ht; rfl)⟩

/-- C5 counterexample: in the 21-bar session `exM1vol`, bar 20 is accepted
by the engine (its volume 250 clears the engine's session-wide average
107.5) even though it fails the claim's trailing-20-bar volume test
(average of the 20 preceding bars is 295), so the claimed equivalence is
false at this input. -/
theorem c5_counterexample :
    breakout_accepted exM1vol exOrb exCfgVol 20 = true ∧
    claim_breakout exM1vol exOrb exCfgVol 20 = false := by
  refine ⟨?_, ?_⟩ <;> with_unfolding_all decide

/-- C5 amended: a bar is accepted as a valid breakout iff it has a
predecessor (position at least 1, within the session), its close crosses
the opening-range boundary in one direction, its body-to-range ratio meets
the configured threshold, and its volume is at least the configured
multiple of the average volume of the session's last 20 fine bars, which
the engine computes once per session (not of the 20 bars preceding the
bar). -/
theorem c5_amended_breakout_characterization (m1_candles : List Candle)
    (orb : ORBLevel) (config : StrategyConfig) (i : Nat) :
    breakout_accepted m1_candles orb config i = true ↔
      (1 ≤ i ∧ i < m1_candles.length ∧
        ((m1_candles.getD i default).close > orb.high ∨
         (m1_candles.getD i default).close < orb.low) ∧
        body_ratio (m1_candles.getD i default) ≥ config.body_ratio_breakout ∧
        (m1_candles.getD i default).volume ≥
          compute_avg_volume (lastN 20 m1_candles) 20 * config.vol_ruptura_ratio) := by
  unfold breakout_accepted detect_breakout
  by_cases hb : 1 ≤ i ∧ i < m1_candles.length
  · rw [if_pos hb]
    dsimp only
    split_ifs with h1 h2 <;> simp_all
    tauto
  · rw [if_neg hb]
    simp only [Bool.false_eq_true, false_iff]
    intro hc
    exact hb ⟨hc.1, hc.2.1⟩

/-- C7 counterexample: evaluating the signal session with equity 0 returns
a built signal (not `none`) whose position size is 0 while its stop
distance is 1/2, so "position size is zero iff stop distance is zero" fails
on the code. -/
theorem c7_counterexample :
    (run_session exM5 exM1sig 0 exCfg ("T1", "AAAA")).map
        (fun s => (s.position_size, s.risk_pips)) = some (0, 1 / 2) ∧
    (1 / 2 : ℚ) ≠ 0 := by
  refine ⟨?_, ?_⟩ <;> with_unfolding_all decide

/-- C7 amended: a signal is rejected (`none`) iff the computed stop distance
is zero; a built signal's stop distance is that (nonzero) distance, its
position size is (equity × risk-per-trade) / stop distance, and that
position size is zero iff equity × risk-per-trade is zero — no built signal
has a zero stop distance. -/
theorem c7_amended_position_sizing (confirm_candle : Candle) (fvg : FVG)
    (orb : ORBLevel) (m1_candles : List Candle) (atr_m1 account_size : ℚ)
    (config : StrategyConfig) (premium : Bool) (nonce : String × String) :
    (build_signal confirm_candle fvg orb m1_candles atr_m1 account_size config
        premium nonce = none ↔
      |signal_entry fvg - signal_stop fvg m1_candles atr_m1 config| = 0) ∧
    (∀ s, build_signal confirm_candle fvg orb m1_candles atr_m1 account_size config
        premium nonce = some s →
      s.risk_pips = |signal_entry fvg - signal_stop fvg m1_candles atr_m1 config| ∧
      s.risk_pips ≠ 0 ∧
      s.position_size = account_size * config.risk_per_trade / s.risk_pips ∧
      (s.position_size = 0 ↔ account_size * config.risk_per_trade = 0)) := by
  unfold build_signal
  dsimp only
  by_cases h : |signal_entry fvg - signal_stop fvg m1_candles atr_m1 config| = 0
  · rw [if_pos h]
    exact ⟨by simp [h], fun s hs => absurd hs (by simp)⟩
  · rw [if_neg h]
    refine ⟨by simp [h], ?_⟩
    intro s hs
    obtain rfl := (Option.some.inj hs).symm
    have hpos : ¬(|signal_entry fvg - signal_stop fvg m1_candles atr_m1 config| ≤ 0 ∨
        (1 : ℚ) ≤ 0) := by
      push_neg
      exact ⟨lt_of_le_of_ne (abs_nonneg _) (Ne.symm h), by norm_num⟩
    refine ⟨rfl, h, ?_, ?_⟩
    · dsimp only
      unfold calc_position_size
      rw [if_neg hpos, mul_one]
    · dsimp only
      unfold calc_position_size
      rw [if_neg hpos, mul_one, div_eq_zero_iff]
      constructor
      · rintro (ha | hr)
        · exact ha
        · exact absurd hr h
      · exact fun ha => Or.inl ha

/-- Witness for C7 amended at the concrete built signal of the example
session (equity 10000): position size 100 = 10000 × 0.005 / 0.5. -/
theorem c7_witness :
    exSignal.risk_pips = |signal_entry exFvg - signal_stop exFvg exM1sig 0 exCfg| ∧
    exSignal.risk_pips ≠ 0 ∧
    exSignal.position_size = 10000 * exCfg.risk_per_trade / exSignal.risk_pips ∧
    (exSignal.position_size = 0 ↔ 10000 * exCfg.risk_per_trade = 0) :=
  (c7_amended_position_sizing exB3sig exFvg exOrb exM1sig 0 10000 exCfg false
    ("T1", "AAAA")).2 exSignal (by with_unfolding_all decide)

/-- Rebuild a signal's id from a given nonce (wall-clock part and uuid
part), leaving every other field alone. -/
def set_id (nonce : String × String) (s : TradeSignal) : TradeSignal :=
  { s with signal_id := nonce.1 ++ "_ORB_" ++ side_tag s.direction ++ "_" ++ nonce.2 }

/-- Blank out a signal's id, leaving every other field alone. -/
def erase_id (s : TradeSignal) : TradeSignal :=
  { s with signal_id := "" }

/-- The environment-supplied nonce flows only into the signal id:
`_build_signal` under one nonce is `_build_signal` under any other nonce
with the id rebuilt. -/
theorem build_signal_nonce (confirm_candle : Candle) (fvg : FVG) (orb : ORBLevel)
    (m1_candles : List Candle) (atr_m1 account_size : ℚ) (config : StrategyConfig)
    (premium : Bool) (n m : String × String) :
    build_signal confirm_candle fvg orb m1_candles atr_m1 account_size config premium n =
      Option.map (set_id n)
        (build_signal confirm_candle fvg orb m1_candles atr_m1 account_size config premium m) := by
  unfold build_signal
  dsimp only
  split_ifs with h <;> rfl

/-- Rebuild the id inside an early-return payload of the candle loop;
continuation states are untouched. -/
def transport_nonce (nonce : String × String) :
    Option TradeSignal ⊕ SessionState → Option TradeSignal ⊕ SessionState
  | Sum.inl r => Sum.inl (Option.map (set_id nonce) r)
  | Sum.inr st => Sum.inr st

/-- One candle-loop step under one nonce equals the step under any other
nonce with the signal id rebuilt: the nonce influences nothing else. -/
theorem session_candle_step_nonce (env : EngineEnv) (n m : String × String)
    (candle : Candle) (idx : Nat) (prev : Option Candle) (st : SessionState) :
    session_candle_step { env with nonce := n } candle idx prev st =
      transport_nonce n (session_candle_step { env with nonce := m } candle idx prev st) := by
  unfold session_candle_step transport_nonce
  dsimp only
  simp only [build_signal_nonce (n := n) (m := m)]
  repeat' split <;> try rfl
  all_goals
    first
    | (obtain ⟨t, ht, rfl⟩ := Option.map_eq_some'.mp (by assumption); simp_all)
    | (have hnone := Option.map_eq_none'.mp (by assumption); simp_all)
  all_goals
    subst_vars
    rfl

/-- The whole candle loop under one nonce equals the loop under the
environment's own nonce with the signal id rebuilt. -/
theorem run_session_aux_nonce (env : EngineEnv) (n : String × String) :
    ∀ (rest : List Candle) (idx : Nat) (prev : Option Candle) (st : SessionState),
      run_session_aux { env with nonce := n } rest idx prev st =
        Option.map (set_id n) (run_session_aux env rest idx prev st) := by
  intro rest
  induction rest with
  | nil => intro idx prev st; rfl
  | cons candle rest ih =>
    intro idx prev st
    show (match session_candle_step { env with nonce := n } candle idx prev st with
      | Sum.inl r => r
      | Sum.inr st' =>
        run_session_aux { env with nonce := n } rest (idx + 1) (some candle) st') =
      Option.map (set_id n)
        (match session_candle_step env candle idx prev st with
        | Sum.inl r => r
        | Sum.inr st' => run_session_aux env rest (idx + 1) (some candle) st')
    rw [session_candle_step_nonce env n env.nonce candle idx prev st]
    have henv : ({ env with nonce := env.nonce } : EngineEnv) = env := rfl
    rw [henv]
    cases hs : session_candle_step env candle idx prev st with
    | inl r => rfl
    | inr st' =>
      show run_session_aux { env with nonce := n } rest (idx + 1) (some candle) st' = _
      exact ih (idx + 1) (some candle) st'

/-- C1 counterexample: the same session, equity and config evaluated under
two different wall-clock/uuid nonces yields signals that differ (in
`signal_id`), so run results are not identical between calls. -/
theorem c1_counterexample :
    run_session exM5 exM1sig 10000 exCfg ("20240102T143000", "AAAA") ≠
      run_session exM5 exM1sig 10000 exCfg ("20240102T143005", "BBBB") := by
  with_unfolding_all decide

/-- C1 amended: the Pattern Engine's session evaluation is deterministic in
every field except `signal_id`: for any two nonces (the wall-clock and uuid
inputs of the id) and identical coarse bars, fine bars, equity and config,
the two results agree once the id is blanked — both `none`, or signals equal
in every other field. -/
theorem c1_amended_deterministic_up_to_id (m5_candles m1_candles : List Candle)
    (account_size : ℚ) (config : StrategyConfig) (n₁ n₂ : String × String) :
    Option.map erase_id (run_session m5_candles m1_candles account_size config n₁) =
      Option.map erase_id (run_session m5_candles m1_candles account_size config n₂) := by
  unfold run_session
  rcases m5_candles with _ | ⟨c0, m5rest⟩
  · rcases m1_candles with _ | ⟨c1, m1rest⟩ <;> rfl
  · rcases m1_candles with _ | ⟨c1, m1rest⟩
    · rfl
    · dsimp only
      split_ifs with hv
      · have e1 : mk_env (c1 :: m1rest) c0 account_size config n₁ =
            { mk_env (c1 :: m1rest) c0 account_size config n₂ with nonce := n₁ } := rfl
        rw [e1, run_session_aux_nonce (mk_env (c1 :: m1rest) c0 account_size config n₂) n₁,
          Option.map_map]
        have e2 : erase_id ∘ set_id n₁ = erase_id := by
          funext s
          rfl
        rw [e2]
      · rfl

/-- The working state immediately after gap formation in `run_session`: the
gap is set, the countdown is (re)initialised, the breakout flag is up and
the setup is not yet active. -/
def post_gap_state (f : FVG) (cd : Int) (bdir : Option Direction) : SessionState :=
  { fvg := some f, setup_active := false, retest_countdown := cd,
    breakout_detected := true, breakout_direction := bdir }

/-- Whether the retest-phase body of the candle loop returns a signal on
this bar: the bar does not invalidate the setup, overlaps the gap zone, is
a valid engulfing against its predecessor, and `_build_signal` succeeds.
Returns that signal. -/
def confirm_fires (env : EngineEnv) (f : FVG) (candle : Candle) (idx : Nat)
    (prev : Option Candle) : Option TradeSignal :=
  match prev with
  | none => none
  | some prev_candle =>
    if !setup_invalidated candle f env.orb env.config && price_in_fvg candle f &&
        is_engulfing candle prev_candle f.direction env.atr_m1 env.avg_vol_m1 env.config then
      build_signal candle f env.orb (env.m1_full.take (idx + 1)) env.atr_m1
        env.account_size env.config (is_premium_signal candle prev_candle) env.nonce
    else none

/-- A bar reached with an exhausted countdown returns `none` immediately,
whatever the bar contains. -/
theorem step_post_gap_expired (env : EngineEnv) (f : FVG) (cd : Int)
    (bdir : Option Direction) (candle : Candle) (idx : Nat) (prev : Option Candle)
    (hcd : cd ≤ 0) :
    session_candle_step env candle idx prev (post_gap_state f cd bdir) = Sum.inl none := by
  unfold session_candle_step post_gap_state
  dsimp only
  rw [if_neg (by simp), if_pos hcd]

/-- With budget left, a retest-phase bar either invalidates (returning
`none`), fires a confirmation (returning its signal), or passes with the
countdown decremented. -/
theorem step_post_gap (env : EngineEnv) (f : FVG) (cd : Int)
    (bdir : Option Direction) (candle : Candle) (idx : Nat) (prev : Option Candle)
    (hcd : 0 < cd) :
    session_candle_step env candle idx prev (post_gap_state f cd bdir) =
      (if setup_invalidated candle f env.orb env.config then Sum.inl none
       else match confirm_fires env f candle idx prev with
            | some s => Sum.inl (some s)
            | none => Sum.inr (post_gap_state f (cd - 1) bdir)) := by
  unfold session_candle_step post_gap_state confirm_fires
  dsimp only
  rw [if_neg (by simp), if_neg (by omega : ¬cd ≤ 0)]
  split_ifs with hinv hpf
  · rfl
  · cases prev with
    | none => rfl
    | some pc =>
      dsimp only
      by_cases he : is_engulfing candle pc f.direction env.atr_m1 env.avg_vol_m1 env.config
      · rw [if_pos he]
        have hc : (!setup_invalidated candle f env.orb env.config && price_in_fvg candle f &&
            is_engulfing candle pc f.direction env.atr_m1 env.avg_vol_m1 env.config) = true := by
          simp_all
        rw [if_pos hc]
      · rw [if_neg he]
        have hc : ¬(!setup_invalidated candle f env.orb env.config && price_in_fvg candle f &&
            is_engulfing candle pc f.direction env.atr_m1 env.avg_vol_m1 env.config) = true := by
          simp_all
        rw [if_neg hc]
  · cases prev with
    | none => rfl
    | some pc =>
      dsimp only
      have hc : ¬(!setup_invalidated candle f env.orb env.config && price_in_fvg candle f &&
          is_engulfing candle pc f.direction env.atr_m1 env.avg_vol_m1 env.config) = true := by
        simp_all
      rw [if_neg hc]

/-- A bar that fires a confirmation did not invalidate the setup. -/
theorem confirm_fires_not_invalid (env : EngineEnv) (f : FVG) (candle : Candle)
    (idx : Nat) (prev : Option Candle) (s : TradeSignal) :
    confirm_fires env f candle idx prev = some s →
    setup_invalidated candle f env.orb env.config = false := by
  unfold confirm_fires
  cases prev with
  | none => intro h; exact absurd h (by simp)
  | some pc =>
    dsimp only
    split_ifs with hc
    · intro _
      simp only [Bool.and_eq_true, Bool.not_eq_true'] at hc
      exact hc.1.1
    · intro h; exact absurd h (by simp)

/-- No bar within the remaining countdown fires a confirmation (bars beyond
the countdown are unconstrained). -/
def no_confirm_run (env : EngineEnv) (f : FVG) :
    List Candle → Nat → Option Candle → Int → Bool
  | [], _, _, _ => true
  | c :: rest, idx, prev, cd =>
    if cd ≤ 0 then true
    else (confirm_fires env f c idx prev).isNone &&
      no_confirm_run env f rest (idx + 1) (some c) (cd - 1)

/-- Every bar of the list neither invalidates the setup nor fires a
confirmation. -/
def clean_run (env : EngineEnv) (f : FVG) :
    List Candle → Nat → Option Candle → Bool
  | [], _, _ => true
  | c :: rest, idx, prev =>
    !setup_invalidated c f env.orb env.config &&
      (confirm_fires env f c idx prev).isNone &&
      clean_run env f rest (idx + 1) (some c)

/-- The previous-candle value after the loop has consumed `pre` on top of
`prev`. -/
def prev_after (pre : List Candle) (prev : Option Candle) : Option Candle :=
  match pre.getLast? with
  | some c => some c
  | none => prev

/-- Shifting `prev_after` across a cons. -/
theorem prev_after_cons (c : Candle) (pre : List Candle) (prev : Option Candle) :
    prev_after (c :: pre) prev = prev_after pre (some c) := by
  cases pre with
  | nil => rfl
  | cons d pre' =>
    simp only [prev_after, List.getLast?_cons_cons]
    cases h : (d :: pre').getLast? with
    | some x => rfl
    | none => exact absurd h (by simp)

/-- If no bar within the countdown fires a confirmation, the loop returns
`none` from the post-gap state. -/
theorem aux_no_confirm (env : EngineEnv) (f : FVG) (bdir : Option Direction) :
    ∀ (rest : List Candle) (idx : Nat) (prev : Option Candle) (cd : Int),
      no_confirm_run env f rest idx prev cd = true →
      run_session_aux env rest idx prev (post_gap_state f cd bdir) = none := by
  intro rest
  induction rest with
  | nil => intros; rfl
  | cons c rest ih =>
    intro idx prev cd h
    show (match session_candle_step env c idx prev (post_gap_state f cd bdir) with
      | Sum.inl r => r
      | Sum.inr st' => run_session_aux env rest (idx + 1) (some c) st') = none
    by_cases hcd : cd ≤ 0
    · rw [step_post_gap_expired env f cd bdir c idx prev hcd]
    · rw [step_post_gap env f cd bdir c idx prev (by omega)]
      unfold no_confirm_run at h
      rw [if_neg hcd] at h
      simp only [Bool.and_eq_true, Option.isNone_iff_eq_none] at h
      split_ifs with hinv
      · rfl
      · rw [h.1]
        exact ih (idx + 1) (some c) (cd - 1) h.2

/-- If the bars before the confirming bar are clean and the confirming bar
arrives with budget to spare, the loop returns exactly the confirmation's
signal. -/
theorem aux_confirm_within (env : EngineEnv) (f : FVG) (bdir : Option Direction) :
    ∀ (pre : List Candle) (idx : Nat) (prev : Option Candle) (cd : Int)
      (confirm : Candle) (post : List Candle) (s : TradeSignal),
      clean_run env f pre idx prev = true →
      (pre.length : Int) < cd →
      confirm_fires env f confirm (idx + pre.length) (prev_after pre prev) = some s →
      run_session_aux env (pre ++ confirm :: post) idx prev (post_gap_state f cd bdir) =
        some s := by
  intro pre
  induction pre with
  | nil =>
    intro idx prev cd confirm post s _ hcd hfire
    simp only [List.length_nil, Nat.add_zero] at hfire
    have hfire' : confirm_fires env f confirm idx prev = some s := hfire
    show (match session_candle_step env confirm idx prev (post_gap_state f cd bdir) with
      | Sum.inl r => r
      | Sum.inr st' => run_session_aux env post (idx + 1) (some confirm) st') = some s
    rw [step_post_gap env f cd bdir confirm idx prev (by simpa using hcd)]
    rw [if_neg (by simp [confirm_fires_not_invalid env f confirm idx prev s hfire'])]
    rw [hfire']
  | cons c pre' ih =>
    intro idx prev cd confirm post s hclean hcd hfire
    unfold clean_run at hclean
    simp only [Bool.and_eq_true, Bool.not_eq_true', Option.isNone_iff_eq_none] at hclean
    obtain ⟨⟨hinv, hfnone⟩, hrest⟩ := hclean
    have hcd0 : 0 < cd := by
      have : (0 : Int) ≤ ((c :: pre').length : Int) := by positivity
      omega
    show (match session_candle_step env c idx prev (post_gap_state f cd bdir) with
      | Sum.inl r => r
      | Sum.inr st' =>
        run_session_aux env (pre' ++ confirm :: post) (idx + 1) (some c) st') = some s
    rw [step_post_gap env f cd bdir c idx prev hcd0]
    rw [if_neg (by simp [hinv])]
    rw [hfnone]
    have hlen : idx + (c :: pre').length = (idx + 1) + pre'.length := by
      simp [List.length_cons]
      omega
    rw [hlen, prev_after_cons] at hfire
    have hcd' : (pre'.length : Int) < cd - 1 := by
      have := hcd
      simp only [List.length_cons] at this
      push_cast at this ⊢
      omega
    exact ih (idx + 1) (some c) (cd - 1) confirm post s hrest hcd' hfire

/-- C6 amended: from the state right after gap formation with retest budget
N = `wait_retest_max_m1`: (1) if none of the first N subsequent bars fires a
confirmation, the session yields `none` — in particular a confirming bar
occurring N+1 bars after gap formation is never reached; (2) a confirming
bar (zone-overlapping, valid-engulfing, and with the setup not invalidated
in between) occurring N or fewer bars after gap formation yields its
TradeSignal, provided signal construction succeeds — `confirm_fires`
requires `_build_signal` to return a signal, which fails exactly when the
computed stop distance is zero (see the C6 counterexample). -/
theorem c6_amended_retest_countdown (env : EngineEnv) (f : FVG) (bdir : Option Direction) :
    (∀ (rest : List Candle) (idx : Nat) (prev : Option Candle),
      no_confirm_run env f rest idx prev env.config.wait_retest_max_m1 = true →
      run_session_aux env rest idx prev
        (post_gap_state f env.config.wait_retest_max_m1 bdir) = none) ∧
    (∀ (pre : List Candle) (idx : Nat) (prev : Option Candle) (confirm : Candle)
      (post : List Candle) (s : TradeSignal),
      clean_run env f pre idx prev = true →
      (pre.length : Int) < env.config.wait_retest_max_m1 →
      confirm_fires env f confirm (idx + pre.length) (prev_after pre prev) = some s →
      run_session_aux env (pre ++ confirm :: post) idx prev
        (post_gap_state f env.config.wait_retest_max_m1 bdir) = some s) :=
  ⟨fun rest idx prev h => aux_no_confirm env f bdir rest idx prev _ h,
   fun pre idx prev confirm post s h1 h2 h3 =>
     aux_confirm_within env f bdir pre idx prev _ confirm post s h1 h2 h3⟩

/-- The engine environment of the example signal session. -/
def exEnv : EngineEnv := mk_env exM1sig exOpen 10000 exCfg ("T1", "AAAA")

/-- Witness for C6 amended: in the example session the gap forms on bar 2
and the confirming bar follows immediately (1 bar after gap formation, with
budget 5), so the loop returns the example signal. -/
theorem c6_witness :
    run_session_aux exEnv ([] ++ exB3sig :: []) 3 (some exB2)
      (post_gap_state exFvg exEnv.config.wait_retest_max_m1 (some Direction.bearish)) =
      some exSignal :=
  (c6_amended_retest_countdown exEnv exFvg (some Direction.bearish)).2
    [] 3 (some exB2) exB3sig [] exSignal
    (by with_unfolding_all decide)
    (by with_unfolding_all decide)
    (by with_unfolding_all decide)

/-- C6 counterexample: in session `exM1zero` the gap forms on bar 2 (the
breakout bar) and bar 3 — one bar after gap formation, well inside the
5-bar budget — overlaps the gap zone, is a valid engulfing and does not
invalidate the setup, yet `run_session` returns `none`: the computed stop
equals the entry (zero stop distance), so the claim's "yields a
TradeSignal" fails as stated. -/
theorem c6_counterexample :
    run_session exM5 exM1zero 10000 exCfg ("T1", "AAAA") = none ∧
    detect_orb exOpen exCfg.min_range_pips = exOrb ∧
    compute_ATR (lastN 20 exM1zero) 14 = 0 ∧
    compute_avg_volume (lastN 20 exM1zero) 20 = 10 ∧
    detect_breakout exB2 exB1 exOrb.high exOrb.low 10 exCfg = some Direction.bearish ∧
    compute_fvg exB0 exB1 exB2 Direction.bearish 0 exCfg = some exFvg ∧
    setup_invalidated exB3zero exFvg exOrb exCfg = false ∧
    price_in_fvg exB3zero exFvg = true ∧
    is_engulfing exB3zero exB2 Direction.bearish 0 10 exCfg = true ∧
    (1 : Int) ≤ exCfg.wait_retest_max_m1 := by
  refine ⟨?_, ?_, ?_, ?_, ?_, ?_, ?_, ?_, ?_, ?_⟩ <;> with_unfolding_all decide
